import Mathlib

/-!
Verification of the chat API pipeline in `src/_app.js` (the handler of
`pages/api/chat.js`, together with `utils/firestoreUtils.js` and
`utils/rateLimiter.js`).

The handler is embedded as a pure function from an environment of
collaborator behaviours (identity verification, rate limiter, the single
outbound fetch, and the Firestore write) and an inbound request to a
`Trace` that records every collaborator call, every document written, and
the HTTP response sent.
-/

/-- Outcome of `verifyIdToken(token)` (utils/firebaseAdmin.js line 197):
either resolves to a decoded token carrying a `uid`, or rejects
(missing, malformed, expired, or signature-invalid credential). -/
inductive VerifyOutcome
  | ok (uid : String)
  | err
deriving DecidableEq, Repr

/-- The resolved value of `rateLimiter.limit(userId)`: the handler reads
only its `success` field (line 57). -/
structure LimiterResponse where
  success : Bool
deriving DecidableEq, Repr

/-- Outcome of `rateLimiter.limit(userId)` (line 56): resolves to a
limiter response, or rejects when the shared store is unreachable. -/
inductive LimitOutcome
  | ok (r : LimiterResponse)
  | err
deriving DecidableEq, Repr

/-- The parsed JSON body returned by the Dify call: the handler reads
`difyData.answer` (line 76, possibly absent) and echoes the whole object
as the 200 response body (line 78); `meta` stands for any further
pass-through fields. -/
structure DifyData where
  answer : Option String
  meta : List (String × String)
deriving DecidableEq, Repr

deriving instance DecidableEq for Except

/-- Outcome of the `fetch` call to the Dify endpoint (lines 64-71):
`fetchErr` when the promise rejects (network failure / timeout);
otherwise a response with an HTTP status and the outcome of
`difyResponse.json()` (line 73), which may itself reject on unparsable
content. Note the handler never inspects the status field. -/
inductive FetchOutcome
  | fetchErr
  | response (status : Nat) (json : Except Unit DifyData)
deriving DecidableEq, Repr

/-- Behaviour of the four external collaborators for one request.
`verify` takes the extracted token (possibly undefined), `limit` the
verified uid, `fetch` the message from the body and the uid (the two
fields of the JSON it posts, line 70), and `saveOk` says whether the
`addDoc` inside `saveChatToFirestore` succeeds. -/
structure Env where
  verify : Option String → VerifyOutcome
  limit : String → LimitOutcome
  fetch : Option String → String → FetchOutcome
  saveOk : Bool

/-- The parts of the inbound request the handler reads: `req.method`,
`req.headers.authorization` (possibly absent) and `req.body.message`
(possibly absent). -/
structure Request where
  method : String
  authorization : Option String
  message : Option String
deriving DecidableEq, Repr

/-- A JSON response body: either an error object `\x7b error: msg \x7d`
or the Dify data echoed on success. -/
inductive ResBody
  | errJson (msg : String)
  | difyJson (d : DifyData)
deriving DecidableEq, Repr

/-- One HTTP response sent via `res.status(s).json(b)`. -/
structure Response where
  status : Nat
  body : ResBody
deriving DecidableEq, Repr

/-- A document of the `chats` collection written by `addDoc`
(utils/firestoreUtils.js lines 221-226); the server-assigned timestamp
is not modelled. -/
structure ChatDoc where
  userId : String
  message : Option String
  response : Option String
deriving DecidableEq, Repr

/-- Everything observable about one handler execution: the arguments of
each collaborator call in order, the chat documents actually written,
and the responses sent. -/
structure Trace where
  verifyCalls : List (Option String)
  limitCalls : List String
  fetchCalls : List (Option String × String)
  saveCalls : List (String × Option String × Option String)
  chats : List ChatDoc
  sent : List Response
deriving DecidableEq, Repr

/-- The empty trace. -/
def Trace.empty : Trace :=
  { verifyCalls := [], limitCalls := [], fetchCalls := [], saveCalls := [],
    chats := [], sent := [] }

/-- Whether the first list is an initial segment of the second. -/
def leadsWith : List Char → List Char → Bool
  | [], _ => true
  | _ :: _, [] => false
  | a :: as, b :: bs => a = b && leadsWith as bs

/-- Splitting a character list on a non-empty separator, scanning left
to right; `fuel` bounds the recursion and is instantiated with the
length of the scanned list, which suffices because each step consumes at
least one character. `acc` holds the current fragment reversed. -/
def splitCharsAux (sep : List Char) : Nat → List Char → List Char → List (List Char)
  | _, [], acc => [acc.reverse]
  | 0, l, acc => [acc.reverse ++ l]
  | fuel + 1, c :: rest, acc =>
    if leadsWith sep (c :: rest) then
      acc.reverse :: splitCharsAux sep fuel (List.drop sep.length (c :: rest)) []
    else
      splitCharsAux sep fuel rest (c :: acc)

/-- The JavaScript `s.split(sep)` for a non-empty string separator. -/
def jsSplit (s sep : String) : List String :=
  (splitCharsAux sep.toList s.toList.length s.toList []).map (fun l => String.mk l)

/-- Embedding of `req.headers.authorization?.split(t)[1]` with
t = "Bearer " (line 51): undefined when the header is absent or the
separator does not occur in it. -/
def extractToken (auth : Option String) : Option String :=
  match auth with
  | none => none
  | some s => (jsSplit s "Bearer ")[1]?

/-- Embedding of `saveChatToFirestore` (utils/firestoreUtils.js lines
219-230): attempts one `addDoc`; a failure is caught and logged inside
the function and never propagated, so the caller always sees a normal
return. Returns the list of documents actually added. -/
def saveChatToFirestore (saveOk : Bool) (userId : String)
    (message : Option String) (response : Option String) : List ChatDoc :=
  if saveOk then [⟨userId, message, response⟩] else []

/-- Embedding of the chat API handler (src/_app.js lines 45-83).
Control flow mirrors the source exactly: non-POST returns 405 before
anything else; inside the try block, a rejection of `verifyIdToken` or
`rateLimiter.limit` or `fetch` or `difyResponse.json()` falls into the
single catch and sends 500; a limiter response with `success = false`
sends 429; otherwise the handler posts `\x7b query: message, user:
userId \x7d`, never inspects the HTTP status of the Dify response,
awaits `saveChatToFirestore` (which cannot reject), and sends 200 with
the parsed Dify data. -/
def handler (env : Env) (req : Request) : Trace :=
  if req.method ≠ "POST" then
    { Trace.empty with sent := [⟨405, .errJson "Method not allowed"⟩] }
  else
    let token := extractToken req.authorization
    match env.verify token with
    | .err =>
      { Trace.empty with
        verifyCalls := [token],
        sent := [⟨500, .errJson "Internal server error"⟩] }
    | .ok userId =>
      match env.limit userId with
      | .err =>
        { Trace.empty with
          verifyCalls := [token],
          limitCalls := [userId],
          sent := [⟨500, .errJson "Internal server error"⟩] }
      | .ok limiterRes =>
        if !limiterRes.success then
          { Trace.empty with
            verifyCalls := [token],
            limitCalls := [userId],
            sent := [⟨429, .errJson "Rate limit exceeded"⟩] }
        else
          let message := req.message
          match env.fetch message userId with
          | .fetchErr =>
            { Trace.empty with
              verifyCalls := [token],
              limitCalls := [userId],
              fetchCalls := [(message, userId)],
              sent := [⟨500, .errJson "Internal server error"⟩] }
          | .response _status json =>
            match json with
            | .error _ =>
              { Trace.empty with
                verifyCalls := [token],
                limitCalls := [userId],
                fetchCalls := [(message, userId)],
                sent := [⟨500, .errJson "Internal server error"⟩] }
            | .ok difyData =>
              { verifyCalls := [token],
                limitCalls := [userId],
                fetchCalls := [(message, userId)],
                saveCalls := [(userId, message, difyData.answer)],
                chats := saveChatToFirestore env.saveOk userId message difyData.answer,
                sent := [⟨200, .difyJson difyData⟩] }

/-- Modelled from the spec: the shared rate counter lives in the
external Upstash store; `utils/rateLimiter.js` (lines 210-213) only
configures `new Ratelimit(...)` and the increment itself happens inside
the `@upstash/ratelimit` library, whose code is not in this repository.
Per the spec, every call to `rateLimiter.limit(subject)` atomically
consumes one slot for that subject whether or not the decision is
allowed, so the number of increments of a subject's counter during one
execution equals the number of limit calls made with that subject. -/
def counterIncrements (t : Trace) (uid : String) : Nat :=
  (t.limitCalls.filter (fun s => s = uid)).length

/-- An environment whose collaborators behave uniformly, for concrete
test executions. -/
def mkEnv (v : VerifyOutcome) (l : LimitOutcome) (f : FetchOutcome)
    (s : Bool) : Env :=
  { verify := fun _ => v, limit := fun _ => l, fetch := fun _ _ => f,
    saveOk := s }

/-- A well-formed POST request with a bearer header and a message. -/
def postReq : Request :=
  { method := "POST", authorization := some "Bearer tok", message := some "hello" }

example :
    (handler (mkEnv (.ok "u1") (.ok ⟨true⟩) (.response 200 (.ok ⟨some "hi", []⟩)) true)
      postReq).sent = [⟨200, .difyJson ⟨some "hi", []⟩⟩] := by rfl

example : extractToken (some "Bearer abc") = some "abc" := by rfl

example : extractToken (some "abc") = none := by rfl

example : extractToken none = none := by rfl

/-- Claim C1 as stated is false on the code: with a failing verify step
(the catch-all at lines 79-82 is the only error path), the handler
responds 500, not 401 — the code has no 401 response anywhere. -/
theorem C1_counterexample :
    (handler (mkEnv .err (.ok ⟨true⟩) .fetchErr true) postReq).sent.map Response.status
      = [500] ∧
    (handler (mkEnv .err (.ok ⟨true⟩) .fetchErr true) postReq).sent.map Response.status
      ≠ [401] := by
  constructor
  · rfl
  · decide

/-- Claim C1 (amended): for every POST request whose bearer credential
fails verification (verifyIdToken rejects), the handler responds with
status 500 (the generic catch-all; the code has no distinct 401 path)
and performs no admission check, no relay call, and no record write. -/
theorem C1_amended_thm (env : Env) (req : Request)
    (hm : req.method = "POST")
    (hv : env.verify (extractToken req.authorization) = .err) :
    (handler env req).sent = [⟨500, .errJson "Internal server error"⟩] ∧
    (handler env req).limitCalls = [] ∧
    (handler env req).fetchCalls = [] ∧
    (handler env req).saveCalls = [] ∧
    (handler env req).chats = [] := by
  simp [handler, hm, hv, Trace.empty]

/-- Claim C1 witness: the amended theorem at a concrete request whose
credential fails verification. -/
theorem C1_witness :
    (handler (mkEnv .err (.ok ⟨true⟩) .fetchErr true) postReq).sent
      = [⟨500, .errJson "Internal server error"⟩] ∧
    (handler (mkEnv .err (.ok ⟨true⟩) .fetchErr true) postReq).limitCalls = [] ∧
    (handler (mkEnv .err (.ok ⟨true⟩) .fetchErr true) postReq).fetchCalls = [] ∧
    (handler (mkEnv .err (.ok ⟨true⟩) .fetchErr true) postReq).saveCalls = [] ∧
    (handler (mkEnv .err (.ok ⟨true⟩) .fetchErr true) postReq).chats = [] :=
  C1_amended_thm (mkEnv .err (.ok ⟨true⟩) .fetchErr true) postReq rfl rfl

/-- Claim C2 as stated is false on the code for the non-success-status
case: the handler never inspects `difyResponse.status` (there is no
`difyResponse.ok` check), so an upstream reply with HTTP status 502 and
a parseable JSON body is treated like a success — the record step runs
and the handler responds 200, instead of responding 500 and skipping
the record step. -/
theorem C2_counterexample :
    (handler (mkEnv (.ok "u1") (.ok ⟨true⟩) (.response 502 (.ok ⟨some "oops", []⟩)) true)
        postReq).sent
      = [⟨200, .difyJson ⟨some "oops", []⟩⟩] ∧
    (handler (mkEnv (.ok "u1") (.ok ⟨true⟩) (.response 502 (.ok ⟨some "oops", []⟩)) true)
        postReq).chats
      = [⟨"u1", some "hello", some "oops"⟩] := by
  constructor <;> rfl

/-- Claim C2 (amended): for every admitted request, if the relay call
rejects (network failure / timeout) or its body is unparsable (the
`json()` call rejects), the handler responds 500 and the Firestore
write is not executed. A non-success upstream HTTP status alone is not
detected: the handler ignores the status field, parses the body, and
proceeds to record and respond 200. -/
theorem C2_amended_thm (env : Env) (req : Request) (uid : String) (r : LimiterResponse)
    (hm : req.method = "POST")
    (hv : env.verify (extractToken req.authorization) = .ok uid)
    (hl : env.limit uid = .ok r)
    (hs : r.success = true)
    (hf : env.fetch req.message uid = .fetchErr ∨
          ∃ st : Nat, env.fetch req.message uid = .response st (.error ())) :
    (handler env req).sent = [⟨500, .errJson "Internal server error"⟩] ∧
    (handler env req).saveCalls = [] ∧
    (handler env req).chats = [] := by
  rcases hf with hf | ⟨st, hf⟩ <;> simp [handler, hm, hv, hl, hs, hf, Trace.empty]

/-- Claim C2 witness: the amended theorem at a concrete admitted request
whose relay call rejects. -/
theorem C2_witness :
    (handler (mkEnv (.ok "u1") (.ok ⟨true⟩) .fetchErr true) postReq).sent
      = [⟨500, .errJson "Internal server error"⟩] ∧
    (handler (mkEnv (.ok "u1") (.ok ⟨true⟩) .fetchErr true) postReq).saveCalls = [] ∧
    (handler (mkEnv (.ok "u1") (.ok ⟨true⟩) .fetchErr true) postReq).chats = [] :=
  C2_amended_thm (mkEnv (.ok "u1") (.ok ⟨true⟩) .fetchErr true) postReq "u1" ⟨true⟩
    rfl rfl rfl rfl (Or.inl rfl)

/-- Claim C3: in every terminating execution of the handler, at most one
chat document is written, and none is written when verification fails
(verifyIdToken rejects) or the rate limiter denies admission. -/
theorem C3_thm (env : Env) (req : Request) :
    (handler env req).chats.length ≤ 1 ∧
    (env.verify (extractToken req.authorization) = .err →
      (handler env req).chats = []) ∧
    (∀ uid r, env.verify (extractToken req.authorization) = .ok uid →
      env.limit uid = .ok r → r.success = false →
      (handler env req).chats = []) := by
  refine ⟨?_, ?_, ?_⟩
  · by_cases hm : req.method = "POST"
    · cases hv : env.verify (extractToken req.authorization) with
      | err => simp [handler, hm, hv, Trace.empty]
      | ok uid =>
        cases hl : env.limit uid with
        | err => simp [handler, hm, hv, hl, Trace.empty]
        | ok r =>
          cases hs : r.success
          · simp [handler, hm, hv, hl, hs, Trace.empty]
          · cases hf : env.fetch req.message uid with
            | fetchErr => simp [handler, hm, hv, hl, hs, hf, Trace.empty]
            | response st j =>
              cases j with
              | error e => simp [handler, hm, hv, hl, hs, hf, Trace.empty]
              | ok d =>
                simp only [handler, hm, hv, hl, hs, hf]
                simp [saveChatToFirestore]
                split <;> simp
    · simp [handler, hm, Trace.empty]
  · intro hv
    by_cases hm : req.method = "POST" <;> simp [handler, hm, hv, Trace.empty]
  · intro uid r hv hl hs
    by_cases hm : req.method = "POST" <;> simp [handler, hm, hv, hl, hs, Trace.empty]

/-- Claim C3 witness: the theorem applied at a concrete rejected
request of each kind — failed verification, then denied admission. -/
theorem C3_witness :
    (handler (mkEnv .err (.ok ⟨true⟩) .fetchErr false) postReq).chats = [] ∧
    (handler (mkEnv (.ok "u1") (.ok ⟨false⟩) .fetchErr false) postReq).chats = [] :=
  ⟨(C3_thm (mkEnv .err (.ok ⟨true⟩) .fetchErr false) postReq).2.1 rfl,
   (C3_thm (mkEnv (.ok "u1") (.ok ⟨false⟩) .fetchErr false) postReq).2.2
     "u1" ⟨false⟩ rfl rfl rfl⟩

/-- Claim C4: for every authenticated POST request whose rate-limiter
decision has success = false, the handler responds 429 and performs no
relay call and no record write. -/
theorem C4_thm (env : Env) (req : Request) (uid : String) (r : LimiterResponse)
    (hm : req.method = "POST")
    (hv : env.verify (extractToken req.authorization) = .ok uid)
    (hl : env.limit uid = .ok r)
    (hs : r.success = false) :
    (handler env req).sent = [⟨429, .errJson "Rate limit exceeded"⟩] ∧
    (handler env req).fetchCalls = [] ∧
    (handler env req).saveCalls = [] ∧
    (handler env req).chats = [] := by
  simp [handler, hm, hv, hl, hs, Trace.empty]

/-- Claim C4 witness: the theorem at a concrete denied request. -/
theorem C4_witness :
    (handler (mkEnv (.ok "u1") (.ok ⟨false⟩) .fetchErr true) postReq).sent
      = [⟨429, .errJson "Rate limit exceeded"⟩] ∧
    (handler (mkEnv (.ok "u1") (.ok ⟨false⟩) .fetchErr true) postReq).fetchCalls = [] ∧
    (handler (mkEnv (.ok "u1") (.ok ⟨false⟩) .fetchErr true) postReq).saveCalls = [] ∧
    (handler (mkEnv (.ok "u1") (.ok ⟨false⟩) .fetchErr true) postReq).chats = [] :=
  C4_thm (mkEnv (.ok "u1") (.ok ⟨false⟩) .fetchErr true) postReq "u1" ⟨false⟩
    rfl rfl rfl rfl

/-- Claim C5: for every request where the relay succeeds (the fetch
resolves and its body parses) but the Firestore write fails, the
handler still responds 200 with the parsed relay data; the persistence
failure never surfaces to the caller. -/
theorem C5_thm (env : Env) (req : Request) (uid : String) (r : LimiterResponse)
    (st : Nat) (d : DifyData)
    (hm : req.method = "POST")
    (hv : env.verify (extractToken req.authorization) = .ok uid)
    (hl : env.limit uid = .ok r)
    (hs : r.success = true)
    (hf : env.fetch req.message uid = .response st (.ok d))
    (hw : env.saveOk = false) :
    (handler env req).sent = [⟨200, .difyJson d⟩] ∧
    (handler env req).chats = [] := by
  simp [handler, hm, hv, hl, hs, hf, saveChatToFirestore, hw]

/-- Claim C5 witness: the theorem at a concrete request with a failing
Firestore write. -/
theorem C5_witness :
    (handler (mkEnv (.ok "u1") (.ok ⟨true⟩) (.response 200 (.ok ⟨some "hi", []⟩)) false)
        postReq).sent
      = [⟨200, .difyJson ⟨some "hi", []⟩⟩] ∧
    (handler (mkEnv (.ok "u1") (.ok ⟨true⟩) (.response 200 (.ok ⟨some "hi", []⟩)) false)
        postReq).chats = [] :=
  C5_thm (mkEnv (.ok "u1") (.ok ⟨true⟩) (.response 200 (.ok ⟨some "hi", []⟩)) false)
    postReq "u1" ⟨true⟩ 200 ⟨some "hi", []⟩ rfl rfl rfl rfl rfl rfl

/-- Claim C6: the round trip at message "hello", verified subject "u1",
a stub upstream returning answer "hi", and a permitting limiter: the
200 response body carries "hi" and exactly one chat document
with userId "u1", message "hello", response "hi" is appended. -/
theorem C6_thm :
    (handler (mkEnv (.ok "u1") (.ok ⟨true⟩) (.response 200 (.ok ⟨some "hi", []⟩)) true)
        postReq).sent
      = [⟨200, .difyJson ⟨some "hi", []⟩⟩] ∧
    (handler (mkEnv (.ok "u1") (.ok ⟨true⟩) (.response 200 (.ok ⟨some "hi", []⟩)) true)
        postReq).chats
      = [⟨"u1", some "hello", some "hi"⟩] := by
  constructor <;> rfl

/-- Claim C7: for every POST request that passes verification, the
rate limiter is called exactly once with the verified subject, so —
under the spec-modelled Upstash semantics that every limit call
consumes one slot — the shared counter for the subject is incremented
exactly once, whatever the admission decision and however the relay
and record steps turn out. -/
theorem C7_thm (env : Env) (req : Request) (uid : String)
    (hm : req.method = "POST")
    (hv : env.verify (extractToken req.authorization) = .ok uid) :
    counterIncrements (handler env req) uid = 1 := by
  have hlim : (handler env req).limitCalls = [uid] := by
    cases hl : env.limit uid with
    | err => simp [handler, hm, hv, hl]
    | ok r =>
      cases hs : r.success
      · simp [handler, hm, hv, hl, hs]
      · cases hf : env.fetch req.message uid with
        | fetchErr => simp [handler, hm, hv, hl, hs, hf]
        | response st j => cases j <;> simp [handler, hm, hv, hl, hs, hf]
  simp [counterIncrements, hlim]

/-- Claim C7 witness: the theorem at a concrete verified request whose
relay call fails — the quota slot is consumed all the same. -/
theorem C7_witness :
    counterIncrements
      (handler (mkEnv (.ok "u7") (.ok ⟨true⟩) .fetchErr true) postReq) "u7" = 1 :=
  C7_thm (mkEnv (.ok "u7") (.ok ⟨true⟩) .fetchErr true) postReq "u7" rfl rfl

/-- Claim C8: for every request whose method is not POST, the handler
responds 405 before any collaborator is invoked — no verification, no
rate-limiter call, no relay call, and no record write. -/
theorem C8_thm (env : Env) (req : Request)
    (hm : req.method ≠ "POST") :
    (handler env req).sent = [⟨405, .errJson "Method not allowed"⟩] ∧
    (handler env req).verifyCalls = [] ∧
    (handler env req).limitCalls = [] ∧
    (handler env req).fetchCalls = [] ∧
    (handler env req).saveCalls = [] ∧
    (handler env req).chats = [] := by
  simp [handler, hm, Trace.empty]

/-- Claim C8 witness: the theorem at a concrete GET request. -/
theorem C8_witness :
    (handler (mkEnv (.ok "u1") (.ok ⟨true⟩) .fetchErr true)
        ⟨"GET", some "Bearer tok", some "hello"⟩).sent
      = [⟨405, .errJson "Method not allowed"⟩] ∧
    (handler (mkEnv (.ok "u1") (.ok ⟨true⟩) .fetchErr true)
        ⟨"GET", some "Bearer tok", some "hello"⟩).verifyCalls = [] ∧
    (handler (mkEnv (.ok "u1") (.ok ⟨true⟩) .fetchErr true)
        ⟨"GET", some "Bearer tok", some "hello"⟩).limitCalls = [] ∧
    (handler (mkEnv (.ok "u1") (.ok ⟨true⟩) .fetchErr true)
        ⟨"GET", some "Bearer tok", some "hello"⟩).fetchCalls = [] ∧
    (handler (mkEnv (.ok "u1") (.ok ⟨true⟩) .fetchErr true)
        ⟨"GET", some "Bearer tok", some "hello"⟩).saveCalls = [] ∧
    (handler (mkEnv (.ok "u1") (.ok ⟨true⟩) .fetchErr true)
        ⟨"GET", some "Bearer tok", some "hello"⟩).chats = [] :=
  C8_thm (mkEnv (.ok "u1") (.ok ⟨true⟩) .fetchErr true)
    ⟨"GET", some "Bearer tok", some "hello"⟩ (by decide)

/-- Claim C9: for every authenticated and admitted request the relay
call happens with exactly the message taken from the body — including
when the message is absent or empty; no validation rejects it first. -/
theorem C9_thm (env : Env) (req : Request) (uid : String) (r : LimiterResponse)
    (hm : req.method = "POST")
    (hv : env.verify (extractToken req.authorization) = .ok uid)
    (hl : env.limit uid = .ok r)
    (hs : r.success = true) :
    (handler env req).fetchCalls = [(req.message, uid)] := by
  cases hf : env.fetch req.message uid with
  | fetchErr => simp [handler, hm, hv, hl, hs, hf]
  | response st j => cases j <;> simp [handler, hm, hv, hl, hs, hf]

/-- Claim C9 witness: the theorem at a concrete admitted request with
an absent message — the relay is still called, with an undefined
query. -/
theorem C9_witness :
    (handler (mkEnv (.ok "u1") (.ok ⟨true⟩) (.response 200 (.ok ⟨some "hi", []⟩)) true)
        ⟨"POST", some "Bearer tok", none⟩).fetchCalls
      = [(none, "u1")] :=
  C9_thm (mkEnv (.ok "u1") (.ok ⟨true⟩) (.response 200 (.ok ⟨some "hi", []⟩)) true)
    ⟨"POST", some "Bearer tok", none⟩ "u1" ⟨true⟩ rfl rfl rfl rfl

/-- Claim C10: every terminating execution of the handler sends exactly
one status-and-JSON-body response — never zero and never two — on every
path: non-POST, failed verification, limiter store failure, denial,
relay failure, unparsable body, and success with or without a
successful write. -/
theorem C10_thm (env : Env) (req : Request) :
    (handler env req).sent.length = 1 := by
  by_cases hm : req.method = "POST"
  · cases hv : env.verify (extractToken req.authorization) with
    | err => simp [handler, hm, hv, Trace.empty]
    | ok uid =>
      cases hl : env.limit uid with
      | err => simp [handler, hm, hv, hl, Trace.empty]
      | ok r =>
        cases hs : r.success
        · simp [handler, hm, hv, hl, hs, Trace.empty]
        · cases hf : env.fetch req.message uid with
          | fetchErr => simp [handler, hm, hv, hl, hs, hf, Trace.empty]
          | response st j =>
            cases j <;> simp [handler, hm, hv, hl, hs, hf, Trace.empty]
  · simp [handler, hm, Trace.empty]
